import Mathlib

/-!
# Verification of the news-ingestion pipeline of neovicon/neovicon.github.io

Shallow embedding of `src/backend/services/newsService.js` (class `NewsService`)
and the post-save engagement hook of `src/backend/models/index.js`
(`postSchema.pre('save')`), together with proofs of the specification claims.

Strings are modelled as `List Char`; JavaScript `null`/`undefined`-able string
fields as `Option String` with explicit truthiness. The two external
collaborators (the news source and the generative model) are modelled as
inputs: the per-topic source result is an `Except` value (an exception or an
article list) and the model response for an article is an `Option (List Char)`
(`none` = the call threw).
-/

namespace NewsSpec

/-! ## JavaScript string primitives -/

/-- Whitespace characters removed by JavaScript `String.prototype.trim`
(the ASCII subset; the source never relies on exotic Unicode whitespace). -/
def jsWhitespace (c : Char) : Bool :=
  c = ' ' || c = '\t' || c = '\n' || c = '\r' || c = '\x0b' || c = '\x0c'

/-- JavaScript line terminators: characters not matched by `.` in a regex. -/
def isLineTerm (c : Char) : Bool :=
  c = '\n' || c = '\r' || c = '\u2028' || c = '\u2029'

/-- Model of `s.trim()`: drop whitespace at both ends. -/
def jsTrim (l : List Char) : List Char :=
  ((l.dropWhile jsWhitespace).reverse.dropWhile jsWhitespace).reverse

/-- Model of `s.toLowerCase()` (ASCII letters, matching the source's usage). -/
def jsToLower (l : List Char) : List Char :=
  l.map Char.toLower

/-- Model of `s.split(',')`: JavaScript split never drops empty pieces and
returns `[""]` on the empty string. -/
def splitOnComma : List Char → List (List Char)
  | [] => [[]]
  | c :: rest =>
    if c = ',' then [] :: splitOnComma rest
    else
      match splitOnComma rest with
      | [] => [[c]]
      | p :: ps => (c :: p) :: ps

/-! ## Regex models

`processWithAI` parses the model response with three regexes:
`/TITLE: (.+)/`, `/SUMMARY: ([\s\S]+?)(?=TAGS:|$)/` and `/TAGS: (.+)/`.
-/

/-- Model of `text.match(/M(.+)/)` for a literal marker `M` (the marker string
includes its trailing space): scan start positions left to right; at the first
position where the marker matches and is followed by at least one
non-line-terminator character, capture the maximal run of such characters. -/
def matchCapture (marker : List Char) : List Char → Option (List Char)
  | [] => none
  | c :: rest =>
    if marker.isPrefixOf (c :: rest) then
      let cap := ((c :: rest).drop marker.length).takeWhile (fun d => !isLineTerm d)
      if cap.isEmpty then matchCapture marker rest else some cap
    else matchCapture marker rest

/-- Index (counting from `start`) of the first occurrence of `pat` as a
contiguous sublist, or `none`. -/
def firstIdxFrom (pat : List Char) : List Char → Nat → Option Nat
  | [], _ => none
  | c :: rest, i =>
    if pat.isPrefixOf (c :: rest) then some i else firstIdxFrom pat rest (i + 1)

/-- The literal `TITLE: ` marker. -/
def titleMarker : List Char := "TITLE: ".toList

/-- The literal `SUMMARY: ` marker. -/
def summaryMarker : List Char := "SUMMARY: ".toList

/-- The literal `TAGS: ` marker (for the capture regex). -/
def tagsMarker : List Char := "TAGS: ".toList

/-- The literal `TAGS:` lookahead (no trailing space) used by the summary
regex. -/
def tagsLookahead : List Char := "TAGS:".toList

/-- Model of `text.match(/SUMMARY: ([\s\S]+?)(?=TAGS:|$)/)`: at the first
position where `SUMMARY: ` matches with at least one character after it, the
non-greedy capture runs to the first occurrence of `TAGS:` strictly after at
least one captured character, or to the end of the string when there is none.
A position where the marker ends the string fails and scanning continues. -/
def summaryCapture : List Char → Option (List Char)
  | [] => none
  | c :: rest =>
    if summaryMarker.isPrefixOf (c :: rest) then
      let after := (c :: rest).drop summaryMarker.length
      if after.isEmpty then summaryCapture rest
      else
        match firstIdxFrom tagsLookahead (after.drop 1) 1 with
        | some j => some (after.take j)
        | none => some after
    else summaryCapture rest

/-! ## Data model -/

/-- Shape of one article from the external news source
(`response.articles[i]`); nullable string fields are `Option String`. -/
structure Article where
  title : Option String
  description : Option String
  content : Option String
  url : String
  urlToImage : Option String
  publishedAt : String
deriving DecidableEq, Repr

/-- JavaScript truthiness of a nullable string: `null`/`undefined` and `""`
are falsy. -/
def optTruthy : Option String → Bool
  | none => false
  | some s => !(s = "")

/-- JavaScript falsiness of a nullable string (`!article.title`). -/
def strOptFalsy (o : Option String) : Bool := !optTruthy o

/-- The three components parsed out of one model response. -/
structure ParsedResponse where
  title : List Char
  content : List Char
  tags : List (List Char)
deriving DecidableEq, Repr

/-- Result of `processWithAI` on success. -/
structure ProcessedArticle where
  title : List Char
  content : List Char
  tags : List (List Char)
  image : Option String
  originalUrl : String
  publishedAt : String
deriving DecidableEq, Repr

/-- `postSchema.type` enum. -/
inductive PostType where
  | text
  | image
  | link
  | news
deriving DecidableEq, Repr

/-- The nested `link` subdocument of a post. -/
structure LinkMeta where
  url : String
  title : Option String
  description : Option String
  image : Option String
deriving DecidableEq, Repr

/-- A stored post (the fields of `postSchema` the ingestion path touches;
users and categories are identifiers). `engagement` is ℚ because the formula
multiplies views by 0.1. -/
structure Post where
  title : List Char
  content : List Char
  author : Nat
  type : PostType
  image : Option String
  categories : List Nat
  tags : List (List Char)
  isNews : Bool
  originalSource : String
  publishedAt : String
  link : Option LinkMeta
  likes : List Nat
  comments : List (Nat × List Char)
  shares : Nat
  views : Nat
  engagement : ℚ
deriving DecidableEq, Repr

/-! ## Engagement hook (`postSchema.pre('save')`) -/

/-- The engagement formula of the pre-save hook:
`(likes * 3) + (comments * 5) + (shares * 7) + (views * 0.1)`. -/
def engagementScore (likes comments shares views : Nat) : ℚ :=
  likes * 3 + comments * 5 + shares * 7 + views * (1 / 10)

/-- Model of the `postSchema.pre('save')` hook: recompute `engagement` from
the current like/comment counts and the shares/views counters. -/
def preSavePost (p : Post) : Post :=
  { p with engagement := engagementScore p.likes.length p.comments.length p.shares p.views }

/-! ## Content rewriter (`processWithAI`) -/

/-- Parse of the model's free-text response (the body of `processWithAI`
after `response.text()`): `null` when the `TITLE:` or `SUMMARY:` regex fails;
otherwise the title is trimmed and truncated to 200 characters, the summary
trimmed, and the tags line (when its regex matches) comma-split with each
piece trimmed and lower-cased. -/
def parseAIResponse (text : List Char) : Option ParsedResponse :=
  match matchCapture titleMarker text, summaryCapture text with
  | some t, some s =>
    some { title := (jsTrim t).take 200
           content := jsTrim s
           tags :=
             match matchCapture tagsMarker text with
             | some tg => (splitOnComma tg).map (fun x => jsToLower (jsTrim x))
             | none => [] }
  | _, _ => none

/-- Model of `NewsService.processWithAI(article, categoryName)`. The model
response is an input: `none` means `generateContent` threw (the catch returns
`null`); otherwise the response text is parsed, and on success the result
carries the article's image URL, URL and timestamp. -/
def processWithAI (article : Article) (aiText : Option (List Char)) :
    Option ProcessedArticle :=
  match aiText with
  | none => none
  | some text =>
    match parseAIResponse text with
    | none => none
    | some pr =>
      some { title := pr.title
             content := pr.content
             tags := pr.tags
             image := article.urlToImage
             originalUrl := article.url
             publishedAt := article.publishedAt }

/-! ## Persistence (`createNewsPost`) -/

/-- Model of `NewsService.createNewsPost`: build the post document (schema
defaults fill likes/comments/shares/views/engagement) and `save()` it, which
fires the pre-save engagement hook. -/
def createNewsPost (pa : ProcessedArticle) (categoryId adminUserId : Nat)
    (originalArticle : Article) : Post :=
  preSavePost
    { title := pa.title
      content := pa.content
      author := adminUserId
      type := if optTruthy pa.image then PostType.image else PostType.news
      image := pa.image
      categories := [categoryId]
      tags := pa.tags
      isNews := true
      originalSource := originalArticle.url
      publishedAt := pa.publishedAt
      link := some { url := originalArticle.url
                     title := originalArticle.title
                     description := originalArticle.description
                     image := originalArticle.urlToImage }
      likes := []
      comments := []
      shares := 0
      views := 0
      engagement := 0 }

/-! ## Per-article processing (`processCategoryNews` inner loop) -/

/-- The dedup query `Post.findOne({ originalSource: article.url, isNews: true })`
against the store, as an existence check. -/
def postExists (store : List Post) (url : String) : Bool :=
  store.any (fun p => p.originalSource = url && p.isNews)

/-- The content rejection test of the inner loop:
`!article.title || !article.description || article.title === '[Removed]'`. -/
def contentInvalid (a : Article) : Bool :=
  strOptFalsy a.title || strOptFalsy a.description || a.title = some "[Removed]"

/-- Outcome of the per-article body, in the source's order: dedup check first,
then content rejection, then the rewriter, then persistence. -/
inductive ArticleOutcome where
  | skippedExisting
  | skippedContent
  | failedRewrite
  | created (p : Post)
deriving DecidableEq, Repr

/-- One iteration of `for (const article of response.articles)` in
`processCategoryNews`, as a pure function of the store: the dedup check runs
first, then the content check, then the AI rewrite, whose failure is
`failedRewrite` and whose success persists via `createNewsPost`. -/
def processArticle (store : List Post) (categoryId adminUserId : Nat)
    (aiFor : Article → Option (List Char)) (a : Article) : ArticleOutcome :=
  if postExists store a.url then ArticleOutcome.skippedExisting
  else if contentInvalid a then ArticleOutcome.skippedContent
  else
    match processWithAI a (aiFor a) with
    | some pa => ArticleOutcome.created (createNewsPost pa categoryId adminUserId a)
    | none => ArticleOutcome.failedRewrite

/-- Running state of one pipeline invocation: the `processedCount` counters,
the post store, and an instrumentation counter of outbound external calls
(one per source query, one per model invocation). -/
structure IngestState where
  success : Nat
  failed : Nat
  store : List Post
  calls : Nat
deriving DecidableEq, Repr

/-- State update for one article: skips leave everything unchanged; a rewrite
failure increments `processedCount.failed`; a success appends the new post and
increments `processedCount.success`. The model call counts as one external
call in the two non-skip outcomes. -/
def stepArticle (categoryId adminUserId : Nat)
    (aiFor : Article → Option (List Char)) (st : IngestState) (a : Article) :
    IngestState :=
  match processArticle st.store categoryId adminUserId aiFor a with
  | ArticleOutcome.skippedExisting => st
  | ArticleOutcome.skippedContent => st
  | ArticleOutcome.failedRewrite =>
    { st with failed := st.failed + 1, calls := st.calls + 1 }
  | ArticleOutcome.created p =>
    { st with success := st.success + 1
              store := st.store ++ [p]
              calls := st.calls + 1 }

/-! ## Per-topic processing (`processCategoryNews`) -/

/-- Environment of one topic iteration: the resolved Category id (if
`Category.findOne` found one), the external source's response for the topic's
keyword query (an exception or the article list), and the model's response
for each article. -/
structure TopicEnv where
  catFound : Option Nat
  sourceResult : Except String (List Article)
  aiFor : Article → Option (List Char)

/-- Model of `NewsService.processCategoryNews`: a missing Category is a logged
skip; a thrown source call propagates (first component `some e`); an empty
article list is a logged skip after the source call; otherwise the articles
are folded through `stepArticle` in source order. The source query counts as
one external call. -/
def processCategoryNews (t : TopicEnv) (adminUserId : Nat) (st : IngestState) :
    Option String × IngestState :=
  match t.catFound with
  | none => (none, st)
  | some categoryId =>
    match t.sourceResult with
    | Except.error e => (some e, { st with calls := st.calls + 1 })
    | Except.ok articles =>
      let st1 := { st with calls := st.calls + 1 }
      if articles.isEmpty then (none, st1)
      else (none, articles.foldl (stepArticle categoryId adminUserId t.aiFor) st1)

/-! ## Pipeline entry point (`fetchAndProcessNews`) -/

/-- Environment of one pipeline invocation: the admin lookup result and one
`TopicEnv` per entry of `this.categories`, in order. -/
structure PipelineEnv where
  adminUser : Option Nat
  topics : List TopicEnv

/-- The `try`/`catch` around `processCategoryNews` inside the topic loop of
`fetchAndProcessNews`: a propagated topic error is absorbed and counted as one
failure; the loop continues. -/
def pipeTopicStep (adminUserId : Nat) (st : IngestState) (t : TopicEnv) :
    IngestState :=
  match processCategoryNews t adminUserId st with
  | (none, st') => st'
  | (some _, st') => { st' with failed := st'.failed + 1 }

/-- The aggregate `processedCount` returned by the pipeline. -/
structure Counts where
  success : Nat
  failed : Nat
deriving DecidableEq, Repr

/-- Result of one pipeline invocation: the returned value (or the propagated
error), the post store afterwards, and the number of external calls made. -/
structure PipeResult where
  result : Except String Counts
  store : List Post
  calls : Nat
deriving Repr

/-- Model of `NewsService.fetchAndProcessNews`: a missing admin user throws
`'Admin user not found'` before the topic loop (no external call, no store
change); otherwise every topic is processed in order with per-topic errors
absorbed into the failure counter, and the counts are returned. -/
def fetchAndProcessNews (env : PipelineEnv) (store : List Post) : PipeResult :=
  match env.adminUser with
  | none => { result := Except.error "Admin user not found", store := store, calls := 0 }
  | some adminUserId =>
    let fin := env.topics.foldl (pipeTopicStep adminUserId)
      { success := 0, failed := 0, store := store, calls := 0 }
    { result := Except.ok { success := fin.success, failed := fin.failed }
      store := fin.store
      calls := fin.calls }

/-! ## Auxiliary tag generation (`generateTags`) -/

/-- Model of `NewsService.generateTags`: `none` means the model call threw
(the catch returns `[]`); otherwise the response text is trimmed, comma-split,
each piece trimmed and lower-cased, and the list filtered to tags with
`tag.length > 0 && tag.length <= 20`. -/
def generateTags (resp : Option (List Char)) : List (List Char) :=
  match resp with
  | none => []
  | some text =>
    let tags := (splitOnComma (jsTrim text)).map (fun t => jsToLower (jsTrim t))
    tags.filter (fun tag => tag.length > 0 && tag.length ≤ 20)

/-- Number of stored posts that the dedup key (originalSource + isNews=true)
matches for a given URL. -/
def countNewsPosts (store : List Post) (url : String) : Nat :=
  (store.filter (fun p => p.originalSource = url && p.isNews)).length

/-! ## Concrete example data used in witnesses and counterexamples -/

/-- An ingested post already in the store, with dedup key `"u"`. -/
def storedPost : Post :=
  { title := ['o'], content := ['c'], author := 2, type := PostType.news
    image := none, categories := [1], tags := [], isNews := true
    originalSource := "u", publishedAt := "ts", link := none
    likes := [], comments := [], shares := 0, views := 0, engagement := 0 }

/-- A placeholder article (`title === '[Removed]'`) whose URL matches
`storedPost`'s dedup key. -/
def removedArticle : Article :=
  { title := some "[Removed]", description := some "d", content := none
    url := "u", urlToImage := none, publishedAt := "ts" }

/-- A well-formed article with a fresh URL. -/
def freshArticle : Article :=
  { title := some "t", description := some "d", content := none
    url := "u2", urlToImage := none, publishedAt := "ts" }

/-! ## Helper lemmas -/

theorem parse_of_title_none {text : List Char}
    (h : matchCapture titleMarker text = none) : parseAIResponse text = none := by
  cases h2 : summaryCapture text <;> simp [parseAIResponse, h, h2]

theorem parse_of_summary_none {text : List Char}
    (h : summaryCapture text = none) : parseAIResponse text = none := by
  cases h1 : matchCapture titleMarker text <;> simp [parseAIResponse, h, h1]

theorem parse_title_length_le {text : List Char} {pr : ParsedResponse}
    (h : parseAIResponse text = some pr) : pr.title.length ≤ 200 := by
  unfold parseAIResponse at h
  rcases h1 : matchCapture titleMarker text with _ | t <;> rw [h1] at h
  · exact absurd h (by simp)
  rcases h2 : summaryCapture text with _ | s <;> rw [h2] at h
  · exact absurd h (by simp)
  simp only [Option.some.injEq] at h
  subst h
  simp [List.length_take]

theorem processWithAI_some {a : Article} {t : Option (List Char)}
    {pa : ProcessedArticle} (h : processWithAI a t = some pa) :
    ∃ text pr, t = some text ∧ parseAIResponse text = some pr ∧
      pa = { title := pr.title, content := pr.content, tags := pr.tags
             image := a.urlToImage, originalUrl := a.url
             publishedAt := a.publishedAt } := by
  cases t with
  | none => simp [processWithAI] at h
  | some text =>
    cases hp : parseAIResponse text with
    | none => simp [processWithAI, hp] at h
    | some pr =>
      simp only [processWithAI, hp, Option.some.injEq] at h
      exact ⟨text, pr, rfl, hp, h.symm⟩

/-! ## Claim theorems -/

/-- C2: on every save the stored engagement field equals
`likes*3 + comments*5 + shares*7 + views*0.1` computed from the post's like
count, comment count, shares counter and views counter at save time; in
particular a post with 2 likes, 1 comment, 0 shares and 10 views is stored
with engagement 12. -/
theorem engagement_recomputed_on_save :
    (∀ p : Post, (preSavePost p).engagement =
      (p.likes.length : ℚ) * 3 + (p.comments.length : ℚ) * 5 +
        (p.shares : ℚ) * 7 + (p.views : ℚ) * (1 / 10)) ∧
    (preSavePost
      { title := [], content := ['c'], author := 0, type := PostType.text
        image := none, categories := [], tags := [], isNews := false
        originalSource := "", publishedAt := "", link := none
        likes := [7, 8], comments := [(9, ['h', 'i'])], shares := 0
        views := 10, engagement := 0 }).engagement = 12 := by
  constructor
  · intro p
    rfl
  · norm_num [preSavePost, engagementScore]

/-- C5: whenever the rewriter (`processWithAI`) succeeds, the title of its
result has length at most 200 characters, regardless of the model output. -/
theorem rewritten_title_le_200 :
    ∀ (a : Article) (aiText : Option (List Char)) (pa : ProcessedArticle),
      processWithAI a aiText = some pa → pa.title.length ≤ 200 := by
  intro a aiText pa h
  obtain ⟨text, pr, -, hpr, rfl⟩ := processWithAI_some h
  exact parse_title_length_le hpr

/-- Witness for C5 at a concrete model response. -/
theorem rewritten_title_le_200_witness :
    ({ title := ['T'], content := ['S'], tags := [], image := none
       originalUrl := "u2", publishedAt := "ts" } : ProcessedArticle).title.length ≤ 200 :=
  rewritten_title_le_200 freshArticle (some ("TITLE: T\nSUMMARY: S".toList))
    { title := ['T'], content := ['S'], tags := [], image := none
      originalUrl := "u2", publishedAt := "ts" } (by decide)

/-- C8: the auxiliary tag-generation call returns only non-empty tags of at
most 20 characters, each the trim-then-lowercase of a comma piece of the model
response, and a thrown model call yields the empty tag list. -/
theorem generateTags_filtered :
    (∀ (resp : Option (List Char)) (tag : List Char), tag ∈ generateTags resp →
      (0 < tag.length ∧ tag.length ≤ 20) ∧
      ∃ piece, tag = jsToLower (jsTrim piece)) ∧
    generateTags none = [] := by
  constructor
  · intro resp tag htag
    cases resp with
    | none => simp [generateTags] at htag
    | some text =>
      simp only [generateTags, List.mem_filter, List.mem_map] at htag
      obtain ⟨⟨piece, hpiece, hmap⟩, hpred⟩ := htag
      simp only [Bool.and_eq_true, decide_eq_true_eq] at hpred
      exact ⟨⟨hpred.1, hpred.2⟩, piece, hmap.symm⟩
  · rfl

/-- Witness for C8 at a concrete model response. -/
theorem generateTags_filtered_witness :
    (0 < (['a', 'i'] : List Char).length ∧ (['a', 'i'] : List Char).length ≤ 20) ∧
    ∃ piece, (['a', 'i'] : List Char) = jsToLower (jsTrim piece) :=
  generateTags_filtered.1 (some "AI".toList) ['a', 'i'] (by decide)

/-- C10: a rewrite response whose TITLE and SUMMARY markers match but whose
TAGS regex does not still parses successfully with an empty tag list; and when
the TAGS line is present its pieces are trimmed and lower-cased but not
filtered, so empty-string tags can occur (here from `TAGS: a, ,b`). -/
theorem tags_line_optional_and_unfiltered :
    (∀ (text t s : List Char),
      matchCapture titleMarker text = some t →
      summaryCapture text = some s →
      matchCapture tagsMarker text = none →
      parseAIResponse text =
        some { title := (jsTrim t).take 200, content := jsTrim s, tags := [] }) ∧
    parseAIResponse ("TITLE: T\nSUMMARY: S\nTAGS: a, ,b".toList) =
      some { title := ['T'], content := ['S'], tags := [['a'], [], ['b']] } := by
  constructor
  · intro text t s h1 h2 h3
    simp [parseAIResponse, h1, h2, h3]
  · decide

/-- Witness for C10 at a concrete response without a TAGS line. -/
theorem tags_line_optional_witness :
    parseAIResponse ("TITLE: T\nSUMMARY: S".toList) =
      some { title := (jsTrim ['T']).take 200, content := jsTrim ['S'], tags := [] } :=
  tags_line_optional_and_unfiltered.1 ("TITLE: T\nSUMMARY: S".toList) ['T'] ['S']
    (by decide) (by decide) (by decide)

/-- C4: a rewrite response missing the TITLE or SUMMARY marker makes the
rewriter return no result; for such an article the step leaves the store
untouched (no persistence), counts one failure, and the loop goes on. -/
theorem missing_marker_not_persisted :
    ∀ text : List Char,
      matchCapture titleMarker text = none ∨ summaryCapture text = none →
      (∀ a : Article, processWithAI a (some text) = none) ∧
      ∀ (categoryId adminUserId : Nat) (aiFor : Article → Option (List Char))
        (st : IngestState) (a : Article),
        aiFor a = some text →
        postExists st.store a.url = false →
        contentInvalid a = false →
        stepArticle categoryId adminUserId aiFor st a =
          { st with failed := st.failed + 1, calls := st.calls + 1 } := by
  intro text h
  have hnone : parseAIResponse text = none := by
    rcases h with h | h
    · exact parse_of_title_none h
    · exact parse_of_summary_none h
  constructor
  · intro a
    simp [processWithAI, hnone]
  · intro categoryId adminUserId aiFor st a hai hpe hci
    simp [stepArticle, processArticle, hpe, hci, hai, processWithAI, hnone]

/-- Witness for C4 at a concrete response lacking the TITLE marker. -/
theorem missing_marker_not_persisted_witness :
    processWithAI removedArticle (some ("SUMMARY: S".toList)) = none ∧
    stepArticle 1 2 (fun _ => some ("SUMMARY: S".toList)) ⟨0, 0, [], 0⟩ freshArticle =
      ⟨0, 1, [], 1⟩ :=
  ⟨(missing_marker_not_persisted ("SUMMARY: S".toList) (Or.inl (by decide))).1
      removedArticle,
   (missing_marker_not_persisted ("SUMMARY: S".toList) (Or.inl (by decide))).2
      1 2 (fun _ => some ("SUMMARY: S".toList)) ⟨0, 0, [], 0⟩ freshArticle
      rfl (by decide) (by decide)⟩

/-- Inversion of the per-article body in the created case: the dedup and
content checks were negative and the post is the rewriter result persisted
via `createNewsPost`. -/
theorem processArticle_created {store : List Post} {categoryId adminUserId : Nat}
    {aiFor : Article → Option (List Char)} {a : Article} {p : Post}
    (h : processArticle store categoryId adminUserId aiFor a =
      ArticleOutcome.created p) :
    postExists store a.url = false ∧ contentInvalid a = false ∧
    ∃ pa, processWithAI a (aiFor a) = some pa ∧
      p = createNewsPost pa categoryId adminUserId a := by
  unfold processArticle at h
  cases hpe : postExists store a.url <;> rw [hpe] at h
  case true => simp at h
  cases hci : contentInvalid a <;> rw [hci] at h
  case true => simp at h
  simp only [Bool.false_eq_true, if_false] at h
  cases hpa : processWithAI a (aiFor a) <;> rw [hpa] at h
  case none => simp at h
  case some pa =>
    simp only [ArticleOutcome.created.injEq] at h
    exact ⟨rfl, rfl, pa, rfl, h.symm⟩

/-- C9: every post the pipeline persists has type `image` exactly when the
source article's `urlToImage` is truthy and type `news` otherwise; the
ingestion path never creates a `text` or `link` post. -/
theorem ingested_post_type_image_or_news :
    ∀ (store : List Post) (categoryId adminUserId : Nat)
      (aiFor : Article → Option (List Char)) (a : Article) (p : Post),
      processArticle store categoryId adminUserId aiFor a =
        ArticleOutcome.created p →
      p.type = (if optTruthy a.urlToImage then PostType.image else PostType.news) ∧
      p.type ≠ PostType.text ∧ p.type ≠ PostType.link := by
  intro store categoryId adminUserId aiFor a p h
  obtain ⟨-, -, pa, hpa, rfl⟩ := processArticle_created h
  obtain ⟨text, pr, -, -, rfl⟩ := processWithAI_some hpa
  refine ⟨rfl, ?_, ?_⟩ <;>
    cases himg : optTruthy a.urlToImage <;>
      simp [createNewsPost, preSavePost, himg]

/-- Witness for C9: a concrete created post of type `image`. -/
theorem ingested_post_type_witness :
    (createNewsPost
        { title := ['T'], content := ['S'], tags := [], image := some "i"
          originalUrl := "u2", publishedAt := "ts" } 1 2
        { title := some "t", description := some "d", content := none
          url := "u2", urlToImage := some "i", publishedAt := "ts" }).type =
      (if optTruthy (some "i") then PostType.image else PostType.news) ∧
    (createNewsPost
        { title := ['T'], content := ['S'], tags := [], image := some "i"
          originalUrl := "u2", publishedAt := "ts" } 1 2
        { title := some "t", description := some "d", content := none
          url := "u2", urlToImage := some "i", publishedAt := "ts" }).type ≠
      PostType.text ∧
    (createNewsPost
        { title := ['T'], content := ['S'], tags := [], image := some "i"
          originalUrl := "u2", publishedAt := "ts" } 1 2
        { title := some "t", description := some "d", content := none
          url := "u2", urlToImage := some "i", publishedAt := "ts" }).type ≠
      PostType.link :=
  ingested_post_type_image_or_news [] 1 2
    (fun _ => some ("TITLE: T\nSUMMARY: S".toList))
    { title := some "t", description := some "d", content := none
      url := "u2", urlToImage := some "i", publishedAt := "ts" }
    (createNewsPost
      { title := ['T'], content := ['S'], tags := [], image := some "i"
        originalUrl := "u2", publishedAt := "ts" } 1 2
      { title := some "t", description := some "d", content := none
        url := "u2", urlToImage := some "i", publishedAt := "ts" })
    (by rfl)

/-- C6 (counterexample): on an article that is both a duplicate and a
placeholder, the code's dedup check fires first (`skippedExisting`), not the
content rejection the claim puts first. -/
theorem content_check_order_counterexample :
    processArticle [storedPost] 1 2 (fun _ => none) removedArticle =
      ArticleOutcome.skippedExisting ∧
    processArticle [storedPost] 1 2 (fun _ => none) removedArticle ≠
      ArticleOutcome.skippedContent ∧
    contentInvalid removedArticle = true ∧
    postExists [storedPost] removedArticle.url = true := by
  refine ⟨by decide, ?_, by decide, by decide⟩
  intro hc
  have h1 : processArticle [storedPost] 1 2 (fun _ => none) removedArticle =
      ArticleOutcome.skippedExisting := by decide
  rw [h1] at hc
  exact absurd hc (by decide)

/-- C6 (amended): the per-article body checks the Post Store for an existing
`originalSource == article.url AND isNews == true` post first, and only on a
miss rejects articles with placeholder/empty titles or missing descriptions. -/
theorem dedup_precedes_content_check :
    ∀ (store : List Post) (categoryId adminUserId : Nat)
      (aiFor : Article → Option (List Char)) (a : Article),
      (postExists store a.url = true →
        processArticle store categoryId adminUserId aiFor a =
          ArticleOutcome.skippedExisting) ∧
      (postExists store a.url = false → contentInvalid a = true →
        processArticle store categoryId adminUserId aiFor a =
          ArticleOutcome.skippedContent) := by
  intro store categoryId adminUserId aiFor a
  constructor
  · intro h
    simp [processArticle, h]
  · intro h1 h2
    simp [processArticle, h1, h2]

/-- Witness for the amended C6 at concrete inputs exercising both branches. -/
theorem dedup_precedes_content_check_witness :
    processArticle [storedPost] 1 2 (fun _ => none) removedArticle =
      ArticleOutcome.skippedExisting ∧
    processArticle [] 1 2 (fun _ => none) removedArticle =
      ArticleOutcome.skippedContent :=
  ⟨(dedup_precedes_content_check [storedPost] 1 2 (fun _ => none) removedArticle).1
      (by decide),
   (dedup_precedes_content_check [] 1 2 (fun _ => none) removedArticle).2
      (by decide) (by decide)⟩

/-- C7 (counterexample): a topic whose source returns zero articles is
skipped silently — the failed counter stays 0, it is not counted as failed. -/
theorem zero_articles_counterexample :
    (pipeTopicStep 2 ⟨0, 0, [], 0⟩
        ⟨some 1, Except.ok [], fun _ => none⟩).failed = 0 ∧
    ¬(pipeTopicStep 2 ⟨0, 0, [], 0⟩
        ⟨some 1, Except.ok [], fun _ => none⟩).failed = 1 := by
  constructor
  · rfl
  · intro h
    simp [pipeTopicStep, processCategoryNews] at h

/-- C7 (amended): a thrown source call is caught at the topic level, counted
as one failure, and the loop continues; a zero-article response is skipped
with no failure counted (only the external call is recorded). -/
theorem source_unavailability_handling :
    ∀ (adminUserId : Nat) (st : IngestState) (t : TopicEnv)
      (categoryId : Nat) (e : String),
      (t.catFound = some categoryId → t.sourceResult = Except.error e →
        pipeTopicStep adminUserId st t =
          { st with failed := st.failed + 1, calls := st.calls + 1 }) ∧
      (t.catFound = some categoryId → t.sourceResult = Except.ok [] →
        pipeTopicStep adminUserId st t = { st with calls := st.calls + 1 }) := by
  intro adminUserId st t categoryId e
  constructor
  · intro h1 h2
    simp [pipeTopicStep, processCategoryNews, h1, h2]
  · intro h1 h2
    simp [pipeTopicStep, processCategoryNews, h1, h2]

/-- Witness for the amended C7 at concrete topic environments. -/
theorem source_unavailability_handling_witness :
    pipeTopicStep 2 ⟨0, 0, [], 0⟩ ⟨some 1, Except.error "boom", fun _ => none⟩ =
      ⟨0, 1, [], 1⟩ ∧
    pipeTopicStep 2 ⟨0, 0, [], 0⟩ ⟨some 1, Except.ok [], fun _ => none⟩ =
      ⟨0, 0, [], 1⟩ :=
  ⟨(source_unavailability_handling 2 ⟨0, 0, [], 0⟩
      ⟨some 1, Except.error "boom", fun _ => none⟩ 1 "boom").1 rfl rfl,
   (source_unavailability_handling 2 ⟨0, 0, [], 0⟩
      ⟨some 1, Except.ok [], fun _ => none⟩ 1 "boom").2 rfl rfl⟩

/-- C3: without an admin user the pipeline rejects with
`'Admin user not found'` before any external call and with the store
untouched, whatever the topics; with an admin user present the invocation
always resolves to aggregate counts — no other error propagates. -/
theorem admin_precondition_fatal :
    (∀ (env : PipelineEnv) (store : List Post), env.adminUser = none →
      fetchAndProcessNews env store =
        { result := Except.error "Admin user not found", store := store, calls := 0 }) ∧
    (∀ (env : PipelineEnv) (store : List Post) (adminUserId : Nat),
      env.adminUser = some adminUserId →
      ∃ c, (fetchAndProcessNews env store).result = Except.ok c) := by
  constructor
  · intro env store h
    simp [fetchAndProcessNews, h]
  · intro env store adminUserId h
    unfold fetchAndProcessNews
    rw [h]
    exact ⟨_, rfl⟩

/-- Witness for C3 at concrete environments with and without an admin. -/
theorem admin_precondition_fatal_witness :
    fetchAndProcessNews ⟨none, []⟩ [] =
      { result := Except.error "Admin user not found", store := [], calls := 0 } ∧
    ∃ c, (fetchAndProcessNews ⟨some 1, []⟩ []).result = Except.ok c :=
  ⟨admin_precondition_fatal.1 ⟨none, []⟩ [] rfl,
   admin_precondition_fatal.2 ⟨some 1, []⟩ [] 1 rfl⟩

/-! ## Dedup preservation (claim C1) -/

theorem createNewsPost_originalSource (pa : ProcessedArticle)
    (categoryId adminUserId : Nat) (a : Article) :
    (createNewsPost pa categoryId adminUserId a).originalSource = a.url := rfl

theorem postExists_append {store : List Post} {url : String} (l : List Post)
    (h : postExists store url = true) : postExists (store ++ l) url = true := by
  simp only [postExists, List.any_append, Bool.or_eq_true]
  exact Or.inl h

theorem countNewsPosts_append_ne {p : Post} {url : String} (store : List Post)
    (h : (decide (p.originalSource = url) && p.isNews) = false) :
    countNewsPosts (store ++ [p]) url = countNewsPosts store url := by
  simp [countNewsPosts, List.filter_append, List.filter, h]

theorem stepArticle_preserves (categoryId adminUserId : Nat)
    (aiFor : Article → Option (List Char)) (st : IngestState) (a : Article)
    (url : String) (h : postExists st.store url = true) :
    postExists (stepArticle categoryId adminUserId aiFor st a).store url = true ∧
    countNewsPosts (stepArticle categoryId adminUserId aiFor st a).store url =
      countNewsPosts st.store url := by
  cases hout : processArticle st.store categoryId adminUserId aiFor a with
  | skippedExisting => exact ⟨by simp [stepArticle, hout, h], by simp [stepArticle, hout]⟩
  | skippedContent => exact ⟨by simp [stepArticle, hout, h], by simp [stepArticle, hout]⟩
  | failedRewrite => exact ⟨by simp [stepArticle, hout, h], by simp [stepArticle, hout]⟩
  | created p =>
    obtain ⟨hne, -, pa, -, rfl⟩ := processArticle_created hout
    have hurl : ¬(a.url = url) := by
      intro e
      rw [e] at hne
      rw [h] at hne
      exact Bool.true_eq_false.mp hne
    have hpred : (decide ((createNewsPost pa categoryId adminUserId a).originalSource = url) &&
        (createNewsPost pa categoryId adminUserId a).isNews) = false := by
      rw [createNewsPost_originalSource]
      simp [hurl]
    constructor
    · simp only [stepArticle, hout]
      exact postExists_append _ h
    · simp only [stepArticle, hout]
      exact countNewsPosts_append_ne st.store hpred

theorem foldArticles_preserves (categoryId adminUserId : Nat)
    (aiFor : Article → Option (List Char)) (articles : List Article) :
    ∀ (st : IngestState) (url : String), postExists st.store url = true →
      postExists
        ((articles.foldl (stepArticle categoryId adminUserId aiFor) st)).store url = true ∧
      countNewsPosts
        ((articles.foldl (stepArticle categoryId adminUserId aiFor) st)).store url =
        countNewsPosts st.store url := by
  induction articles with
  | nil => exact fun st url h => ⟨h, rfl⟩
  | cons a rest ih =>
    intro st url h
    have h1 := stepArticle_preserves categoryId adminUserId aiFor st a url h
    have h2 := ih (stepArticle categoryId adminUserId aiFor st a) url h1.1
    exact ⟨h2.1, h2.2.trans h1.2⟩

theorem processCategoryNews_preserves (t : TopicEnv) (adminUserId : Nat)
    (st : IngestState) (url : String) (h : postExists st.store url = true) :
    postExists (processCategoryNews t adminUserId st).2.store url = true ∧
    countNewsPosts (processCategoryNews t adminUserId st).2.store url =
      countNewsPosts st.store url := by
  unfold processCategoryNews
  rcases ht : t.catFound with _ | categoryId
  · exact ⟨h, rfl⟩
  rcases hs : t.sourceResult with e | articles
  · exact ⟨h, rfl⟩
  cases he : articles.isEmpty
  · simp only [he, Bool.false_eq_true, if_false]
    exact foldArticles_preserves categoryId adminUserId t.aiFor articles
      { st with calls := st.calls + 1 } url h
  · simp only [he, if_true]
    exact ⟨h, trivial⟩

theorem pipeTopicStep_store (adminUserId : Nat) (st : IngestState) (t : TopicEnv) :
    (pipeTopicStep adminUserId st t).store =
      (processCategoryNews t adminUserId st).2.store := by
  unfold pipeTopicStep
  rcases hpc : processCategoryNews t adminUserId st with ⟨e, st'⟩
  cases e <;> rfl

theorem pipeTopicStep_preserves (adminUserId : Nat) (st : IngestState)
    (t : TopicEnv) (url : String) (h : postExists st.store url = true) :
    postExists (pipeTopicStep adminUserId st t).store url = true ∧
    countNewsPosts (pipeTopicStep adminUserId st t).store url =
      countNewsPosts st.store url := by
  rw [pipeTopicStep_store]
  exact processCategoryNews_preserves t adminUserId st url h

theorem foldTopics_preserves (adminUserId : Nat) (topics : List TopicEnv) :
    ∀ (st : IngestState) (url : String), postExists st.store url = true →
      postExists ((topics.foldl (pipeTopicStep adminUserId) st)).store url = true ∧
      countNewsPosts ((topics.foldl (pipeTopicStep adminUserId) st)).store url =
        countNewsPosts st.store url := by
  induction topics with
  | nil => exact fun st url h => ⟨h, rfl⟩
  | cons t rest ih =>
    intro st url h
    have h1 := pipeTopicStep_preserves adminUserId st t url h
    have h2 := ih (pipeTopicStep adminUserId st t) url h1.1
    exact ⟨h2.1, h2.2.trans h1.2⟩

/-- C1: if the store already holds a post with `isNews=true` whose
`originalSource` is a given URL, then a full pipeline invocation — whatever
the topics, source responses and model responses — leaves the number of
posts with that dedup key unchanged: the duplicate article is skipped and no
second post is created. -/
theorem dedup_no_duplicate_posts :
    ∀ (env : PipelineEnv) (store : List Post) (url : String),
      postExists store url = true →
      countNewsPosts (fetchAndProcessNews env store).store url =
        countNewsPosts store url := by
  intro env store url h
  unfold fetchAndProcessNews
  rcases ha : env.adminUser with _ | adminUserId
  · rfl
  exact (foldTopics_preserves adminUserId env.topics
    { success := 0, failed := 0, store := store, calls := 0 } url h).2

/-- Witness for C1: a pipeline run whose source returns the already-stored
article `"u"` again leaves the count of posts with that dedup key at 1. -/
theorem dedup_no_duplicate_posts_witness :
    countNewsPosts
      (fetchAndProcessNews
        ⟨some 2,
          [⟨some 1,
            Except.ok [{ title := some "t", description := some "d", content := none
                         url := "u", urlToImage := none, publishedAt := "ts" }],
            fun _ => some ("TITLE: T\nSUMMARY: S".toList)⟩]⟩
        [storedPost]).store "u" =
      countNewsPosts [storedPost] "u" :=
  dedup_no_duplicate_posts
    ⟨some 2,
      [⟨some 1,
        Except.ok [{ title := some "t", description := some "d", content := none
                     url := "u", urlToImage := none, publishedAt := "ts" }],
        fun _ => some ("TITLE: T\nSUMMARY: S".toList)⟩]⟩
    [storedPost] "u" (by decide)

end NewsSpec
